import Mathlib

/-!
Verification of the query-interpretation and relevance-scoring pipeline of
semantic_house_search.py (class SemanticHouseSearch).

The embedding mirrors the Python source:
  - interpret_semantic_query  (rule table semantic_mappings, substring match,
    per-category union, duplicate removal);
  - calculate_semantic_score  (ordered additive contribution blocks, clamp);
  - passes_criteria           (hard price/size bounds with Python truthiness,
    semantic minimum-score check);
  - rank_by_semantic_relevance (stable descending sort on the key pair
    (semantic_score, price_per_sqft); comparing None with a number raises
    TypeError in Python, modelled by Except.error).

Numbers are modelled by Rat.  Every weight sum reached in the concrete
evaluations below is exact in IEEE double arithmetic as well (sums of the
fixed weights 0.2/0.3/0.4/0.5 used by the source round to the same values),
so Rat equalities coincide with the Python float results on these inputs.
-/

namespace SemanticHouseSearch

/-- Python str.lower (all text in the rule table is ASCII). -/
def pyLower (s : String) : String := ⟨s.data.map Char.toLower⟩

/-- Python str.upper (all text reaching it is ASCII). -/
def pyUpper (s : String) : String := ⟨s.data.map Char.toUpper⟩

/-- Whether the second character list is a prefix of the first. -/
def startsWithList : List Char → List Char → Bool
  | _, [] => true
  | [], _ :: _ => false
  | a :: as, b :: bs => a == b && startsWithList as bs

/-- Whether the first character list occurs contiguously inside the second. -/
def occursIn : List Char → List Char → Bool
  | sub, [] => sub.isEmpty
  | sub, c :: rest => startsWithList (c :: rest) sub || occursIn sub rest

/-- Python `sub in hay` substring containment. -/
def strContains (hay sub : String) : Bool := occursIn sub.data hay.data

/-- Python `any(x in hay for x in subs)`. -/
def anyContains (hay : String) (subs : List String) : Bool :=
  subs.any (fun sub => strContains hay sub)

/-- Python truthiness of an optional number (None and 0 are falsy). -/
def ratTruthy : Option Rat → Bool
  | none => false
  | some v => v != 0

/-- Python truthiness of an optional integer (None and 0 are falsy). -/
def intTruthy : Option Int → Bool
  | none => false
  | some v => v != 0

/-- The categories of the dict built by interpret_semantic_query. -/
inductive Cat where
  | home_types
  | excluded_home_types
  | preferences
  | exclusions
  | floor_preferences
  | condition_preferences
  | neighborhood_preferences
  | neighborhood_exclusions
deriving DecidableEq

/-- One value of the semantic_mappings table: the tag lists a phrase key
contributes (a key the Python dict omits is an empty list here, which the
extend loop treats identically). -/
structure Mapping where
  home_types : List String := []
  excluded_home_types : List String := []
  preferences : List String := []
  exclusions : List String := []
  condition_preferences : List String := []
  neighborhood_preferences : List String := []
  neighborhood_exclusions : List String := []
deriving DecidableEq

/-- Category projection of a mapping (no mapping of the source table carries
floor_preferences). -/
def Mapping.cat (m : Mapping) : Cat → List String
  | .home_types => m.home_types
  | .excluded_home_types => m.excluded_home_types
  | .preferences => m.preferences
  | .exclusions => m.exclusions
  | .floor_preferences => []
  | .condition_preferences => m.condition_preferences
  | .neighborhood_preferences => m.neighborhood_preferences
  | .neighborhood_exclusions => m.neighborhood_exclusions

/-- The interpreted dict once initialized (the eight keys the source creates). -/
structure Interpreted where
  home_types : List String
  excluded_home_types : List String
  preferences : List String
  exclusions : List String
  floor_preferences : List String
  condition_preferences : List String
  neighborhood_preferences : List String
  neighborhood_exclusions : List String
deriving DecidableEq

def Interpreted.cat (f : Interpreted) : Cat → List String
  | .home_types => f.home_types
  | .excluded_home_types => f.excluded_home_types
  | .preferences => f.preferences
  | .exclusions => f.exclusions
  | .floor_preferences => f.floor_preferences
  | .condition_preferences => f.condition_preferences
  | .neighborhood_preferences => f.neighborhood_preferences
  | .neighborhood_exclusions => f.neighborhood_exclusions

def Interpreted.empty : Interpreted :=
  { home_types := [], excluded_home_types := [], preferences := [],
    exclusions := [], floor_preferences := [], condition_preferences := [],
    neighborhood_preferences := [], neighborhood_exclusions := [] }

/-- One pass of the apply-mappings loop body: extend each present category. -/
def Interpreted.extendWith (f : Interpreted) (m : Mapping) : Interpreted :=
  { home_types := f.home_types ++ m.home_types,
    excluded_home_types := f.excluded_home_types ++ m.excluded_home_types,
    preferences := f.preferences ++ m.preferences,
    exclusions := f.exclusions ++ m.exclusions,
    floor_preferences := f.floor_preferences,
    condition_preferences := f.condition_preferences ++ m.condition_preferences,
    neighborhood_preferences := f.neighborhood_preferences ++ m.neighborhood_preferences,
    neighborhood_exclusions := f.neighborhood_exclusions ++ m.neighborhood_exclusions }

/-- The remove-duplicates pass, `interpreted[key] = list(set(interpreted[key]))`
(membership and duplicate-freeness are what the spec promises; the set order
is not significant). -/
def Interpreted.dedupAll (f : Interpreted) : Interpreted :=
  { home_types := f.home_types.dedup,
    excluded_home_types := f.excluded_home_types.dedup,
    preferences := f.preferences.dedup,
    exclusions := f.exclusions.dedup,
    floor_preferences := f.floor_preferences.dedup,
    condition_preferences := f.condition_preferences.dedup,
    neighborhood_preferences := f.neighborhood_preferences.dedup,
    neighborhood_exclusions := f.neighborhood_exclusions.dedup }

/-- The Python dict self.interpreted_filters: the empty dict (falsy, returned
for an empty query and the initial state) or an initialized dict (truthy even
when every category list is empty). -/
inductive InterpretedFilters where
  | emptyDict
  | filters (f : Interpreted)
deriving DecidableEq

/-- Python `interpreted_filters.get(category, [])`. -/
def InterpretedFilters.get : InterpretedFilters → Cat → List String
  | .emptyDict, _ => []
  | .filters f, c => f.cat c

/-- The semantic_mappings table of interpret_semantic_query, in source order. -/
def semantic_mappings : List (String × Mapping) :=
  [ ("no one living above",
      { home_types := ["TOWNHOUSE", "SINGLE_FAMILY"],
        preferences := ["top_floor_condo"],
        excluded_home_types := ["mid_floor_condo", "ground_floor_condo"] }),
    ("nobody above",
      { home_types := ["TOWNHOUSE", "SINGLE_FAMILY"],
        preferences := ["top_floor_condo"] }),
    ("top floor", { preferences := ["top_floor_condo"] }),
    ("penthouse", { preferences := ["top_floor_condo", "luxury"] }),
    ("not a fixer-upper",
      { condition_preferences := ["good_condition", "recently_renovated"],
        exclusions := ["needs_work", "fixer_upper", "handyman_special"] }),
    ("not fixer",
      { condition_preferences := ["good_condition"],
        exclusions := ["fixer_upper"] }),
    ("move-in ready", { condition_preferences := ["move_in_ready", "good_condition"] }),
    ("turnkey", { condition_preferences := ["turnkey", "move_in_ready"] }),
    ("private", { preferences := ["private", "quiet"] }),
    ("quiet", { preferences := ["quiet", "private"] }),
    ("peaceful", { preferences := ["quiet", "peaceful"] }),
    ("outdoor space", { preferences := ["outdoor_space", "patio", "deck", "garden"] }),
    ("garden", { preferences := ["garden", "outdoor_space"] }),
    ("patio", { preferences := ["patio", "outdoor_space"] }),
    ("deck", { preferences := ["deck", "outdoor_space"] }),
    ("parking", { preferences := ["parking", "garage"] }),
    ("garage", { preferences := ["garage", "parking"] }),
    ("view", { preferences := ["view", "scenic"] }),
    ("city view", { preferences := ["city_view", "view"] }),
    ("water view", { preferences := ["water_view", "view"] }),
    ("not edwardian", { exclusions := ["edwardian", "victorian", "old_architecture"] }),
    ("not super old", { exclusions := ["old_building", "historic", "vintage"] }),
    ("not creaky", { exclusions := ["old_flooring", "creaky", "worn"] }),
    ("not dusty", { exclusions := ["dusty", "old_interior", "outdated"] }),
    ("high ceilings", { preferences := ["high_ceilings", "modern_architecture", "open_feel"] }),
    ("natural light", { preferences := ["natural_light", "sunny", "bright"] }),
    ("kitchen natural light",
      { preferences := ["kitchen_light", "natural_light", "bright_kitchen"] }),
    ("alamo square",
      { neighborhood_preferences := ["alamo_square", "safe_area", "desirable"] }),
    ("cole valley",
      { neighborhood_preferences := ["cole_valley", "safe_area", "desirable"] }),
    ("nopa", { neighborhood_preferences := ["nopa", "safe_area", "desirable"] }),
    ("haight", { neighborhood_preferences := ["haight", "safe_area", "desirable"] }),
    ("hayes valley",
      { neighborhood_preferences := ["hayes_valley", "safe_area", "desirable"] }),
    ("tenderloin", { neighborhood_exclusions := ["tenderloin", "high_crime", "unsafe"] }),
    ("market st", { neighborhood_exclusions := ["market_street", "busy_street", "noisy"] }),
    ("downtown", { neighborhood_exclusions := ["downtown", "business_district", "noisy"] }),
    ("fidi", { neighborhood_exclusions := ["financial_district", "business_area", "noisy"] }),
    ("mission safe",
      { neighborhood_preferences := ["mission_safe", "quiet_mission", "peaceful_mission"] }),
    ("mission quiet",
      { neighborhood_preferences := ["mission_quiet", "peaceful_mission"] }),
    ("mission peaceful",
      { neighborhood_preferences := ["mission_peaceful", "quiet_mission"] }),
    ("not super quiet",
      { exclusions := ["too_quiet", "residential_only", "family_focused"] }),
    ("not residential",
      { exclusions := ["residential_only", "family_neighborhood", "suburban_feel"] }),
    ("not family friendly", { exclusions := ["family_focused", "kid_friendly", "suburban"] }),
    ("not suuuper quiet", { exclusions := ["too_quiet", "dead_quiet", "boring_area"] }) ]

/-- interpret_semantic_query: an empty query returns the empty dict; otherwise
every mapping whose phrase key is a substring of the lower-cased query extends
the corresponding categories, and each category list is then deduplicated. -/
def interpret_semantic_query (query : String) : InterpretedFilters :=
  if query = "" then .emptyDict
  else
    .filters
      ((semantic_mappings.foldl
        (fun acc p =>
          if strContains (pyLower query) p.1 then acc.extendWith p.2 else acc)
        Interpreted.empty).dedupAll)

/-- The fields of the property-data dict built by extract_property_data that
the scorer, the filter and the ranking read.  Every key is always present in
the dict; a field the raw listing lacked holds None, modelled by Option. -/
structure PropertyData where
  address : String
  price : Option Rat
  sqft : Option Rat
  price_per_sqft : Option Rat
  home_type : String
  lot_size : Option Rat
  year_built : Option Int
  semantic_score : Rat
deriving DecidableEq

/-- One score contribution: (weight, match label, explanation). -/
abbrev Contribution := Rat × String × String

/-- Python f-string :.0f formatting of the lot size (Python rounds exact
halves to even; the difference can only show at exact half values, which no
claim touches). -/
def fmtNoDecimals (x : Rat) : String := toString (round x)

/-- Home-type preference block: +0.3 when the preference list is non-empty
(truthy) and the upper-cased home type is among the upper-cased preferences. -/
def homeTypeContrib (f : Interpreted) (p : PropertyData) : List Contribution :=
  if f.home_types ≠ [] ∧ pyUpper p.home_type ∈ f.home_types.map pyUpper then
    [(0.3, "Home type: " ++ pyUpper p.home_type,
      "Matches preferred home type: " ++ pyUpper p.home_type)]
  else []

/-- Top-floor-condo block: only for CONDO listings; the +0.4 indicator tier
and the +0.2 high-floor-digit tier are an if/elif chain. -/
def topFloorContrib (f : Interpreted) (p : PropertyData) : List Contribution :=
  if "top_floor_condo" ∈ f.preferences then
    if pyUpper p.home_type = "CONDO" then
      if anyContains (pyLower p.address) ["top", "penthouse", "roof", "terrace"] = true then
        [(0.4, "Top floor unit", "Likely top floor condo - no one living above")]
      else if anyContains (pyLower p.address) ["4", "5", "6", "7", "8", "9"] = true then
        [(0.2, "High floor unit", "High floor condo - reduced noise from above")]
      else []
    else []
  else []

/-- No-one-above block: re-inspects the lower-cased raw query string, not the
interpreted tags. -/
def noOneAboveContrib (raw_query : String) (p : PropertyData) : List Contribution :=
  if strContains (pyLower raw_query) "no one living above" = true ∨
      strContains (pyLower raw_query) "nobody above" = true then
    if pyUpper p.home_type ∈ ["TOWNHOUSE", "SINGLE_FAMILY"] then
      [(0.5, "No one above", pyUpper p.home_type ++ " - no neighbors above")]
    else []
  else []

/-- Condition block: under the good_condition tag, the year>2000 check and the
renovation-indicator check are independent and may both fire. -/
def conditionContrib (f : Interpreted) (p : PropertyData) : List Contribution :=
  if "good_condition" ∈ f.condition_preferences then
    ((match p.year_built with
      | some y =>
        if y ≠ 0 ∧ y > 2000 then
          [(0.2, "Recent construction",
            "Built in " ++ toString y ++ " - likely good condition")]
        else []
      | none => []) : List Contribution) ++
    (if anyContains (pyLower p.address) ["renovated", "updated", "modern"] = true then
      [(0.3, "Recently renovated", "Address suggests recent renovations")]
    else [])
  else []

/-- Architectural-exclusion block: −0.3. -/
def oldArchContrib (f : Interpreted) (p : PropertyData) : List Contribution :=
  if "edwardian" ∈ f.exclusions ∨ "victorian" ∈ f.exclusions then
    if anyContains (pyLower p.address) ["edwardian", "victorian", "1900", "1910", "1920"] = true then
      [(-0.3, "Old architecture", "Edwardian/Victorian architecture detected")]
    else []
  else []

/-- Old-building block: −0.2 under the old_building exclusion for year<1980. -/
def oldBuildingContrib (f : Interpreted) (p : PropertyData) : List Contribution :=
  if "old_building" ∈ f.exclusions then
    match p.year_built with
    | some y =>
      if y ≠ 0 ∧ y < 1980 then
        [(-0.2, "Older building", "Built in " ++ toString y ++ " - older construction")]
      else []
    | none => []
  else []

/-- Modern-architecture block: +0.2. -/
def modernContrib (f : Interpreted) (p : PropertyData) : List Contribution :=
  if "high_ceilings" ∈ f.preferences then
    if anyContains (pyLower p.address) ["modern", "contemporary", "loft", "converted"] = true then
      [(0.2, "Modern architecture", "Address suggests modern features like high ceilings")]
    else []
  else []

/-- Natural-light block: +0.2. -/
def lightContrib (f : Interpreted) (p : PropertyData) : List Contribution :=
  if "natural_light" ∈ f.preferences then
    if anyContains (pyLower p.address) ["sunny", "bright", "south", "east", "west"] = true then
      [(0.2, "Natural light", "Address suggests good natural light")]
    else []
  else []

/-- Neighborhood-preference block: +0.3 when any preference tag is present
(truthy list) and the address names a desirable area. -/
def nbhdPrefContrib (f : Interpreted) (p : PropertyData) : List Contribution :=
  if f.neighborhood_preferences ≠ [] then
    if anyContains (pyLower p.address) ["alamo", "cole", "nopa", "haight", "hayes"] = true then
      [(0.3, "Desirable neighborhood", "Located in preferred neighborhood")]
    else []
  else []

/-- Neighborhood-exclusion block: −0.4. -/
def nbhdExclContrib (f : Interpreted) (p : PropertyData) : List Contribution :=
  if f.neighborhood_exclusions ≠ [] then
    if anyContains (pyLower p.address) ["tenderloin", "market", "downtown", "financial"] = true then
      [(-0.4, "Less desirable area", "Located in area to avoid")]
    else []
  else []

/-- Outdoor-space block: +0.2 for a truthy lot size above 2000. -/
def outdoorContrib (f : Interpreted) (p : PropertyData) : List Contribution :=
  if "outdoor_space" ∈ f.preferences ∨ "patio" ∈ f.preferences ∨
      "deck" ∈ f.preferences ∨ "garden" ∈ f.preferences then
    match p.lot_size with
    | some l =>
      if l ≠ 0 ∧ l > 2000 then
        [(0.2, "Outdoor space",
          "Large lot (" ++ fmtNoDecimals l ++ " sqft) - likely outdoor space")]
      else []
    | none => []
  else []

/-- Parking block: +0.2. -/
def parkingContrib (f : Interpreted) (p : PropertyData) : List Contribution :=
  if "parking" ∈ f.preferences ∨ "garage" ∈ f.preferences then
    if anyContains (pyLower p.address) ["garage", "parking", "driveway"] = true then
      [(0.2, "Parking available", "Address suggests parking/garage")]
    else []
  else []

/-- Lifestyle-exclusion block: −0.2. -/
def quietExclContrib (f : Interpreted) (p : PropertyData) : List Contribution :=
  if "too_quiet" ∈ f.exclusions ∨ "residential_only" ∈ f.exclusions then
    if anyContains (pyLower p.address) ["residential", "quiet", "family", "suburban"] = true then
      [(-0.2, "Too quiet/residential", "Area may be too quiet/residential")]
    else []
  else []

/-- All contribution blocks of calculate_semantic_score in source order.  An
empty interpreted dict returns before any block runs. -/
def contribs (i : InterpretedFilters) (raw_query : String) (p : PropertyData) :
    List Contribution :=
  match i with
  | .emptyDict => []
  | .filters f =>
    homeTypeContrib f p ++ topFloorContrib f p ++ noOneAboveContrib raw_query p ++
    conditionContrib f p ++ oldArchContrib f p ++ oldBuildingContrib f p ++
    modernContrib f p ++ lightContrib f p ++ nbhdPrefContrib f p ++
    nbhdExclContrib f p ++ outdoorContrib f p ++ parkingContrib f p ++
    quietExclContrib f p

/-- The running total of calculate_semantic_score before the final clamp. -/
def raw_score (i : InterpretedFilters) (raw_query : String) (p : PropertyData) : Rat :=
  ((contribs i raw_query p).map (fun c => c.1)).sum

/-- calculate_semantic_score: the clamped score, the match labels and the
explanations, in evaluation order. -/
def calculate_semantic_score (i : InterpretedFilters) (raw_query : String)
    (p : PropertyData) : Rat × List String × List String :=
  (max 0 (min (raw_score i raw_query p) 1),
   (contribs i raw_query p).map (fun c => c.2.1),
   (contribs i raw_query p).map (fun c => c.2.2))

/-- The "filters" part of the configuration; a missing key is none
(filters.get falls back to 0 for minimums and to infinity for maximums). -/
structure FiltersConfig where
  min_price : Option Rat
  max_price : Option Rat
  min_sqft : Option Rat
  max_sqft : Option Rat
deriving DecidableEq

/-- The "semantic" part of the configuration. -/
structure SemanticConfig where
  enable_semantic_search : Bool
  min_semantic_score : Rat
deriving DecidableEq

/-- The filters section of DEFAULT_CONFIG. -/
def DEFAULT_FILTERS : FiltersConfig :=
  { min_price := some 1000000, max_price := some 2000000,
    min_sqft := some 1000, max_sqft := some 2000 }

/-- The semantic section of DEFAULT_CONFIG. -/
def DEFAULT_SEMANTIC : SemanticConfig :=
  { enable_semantic_search := true, min_semantic_score := 0.3 }

/-- The price part of passes_criteria: the bound checks run only when the
price field is truthy (missing or zero price skips them). -/
def priceCheck (fc : FiltersConfig) (p : PropertyData) : Bool :=
  match p.price with
  | none => true
  | some v =>
    if v = 0 then true
    else
      !(v < fc.min_price.getD 0) &&
      (match fc.max_price with
        | none => true
        | some m => !(v > m))

/-- The square-footage part of passes_criteria, same truthiness behavior. -/
def sqftCheck (fc : FiltersConfig) (p : PropertyData) : Bool :=
  match p.sqft with
  | none => true
  | some v =>
    if v = 0 then true
    else
      !(v < fc.min_sqft.getD 0) &&
      (match fc.max_sqft with
        | none => true
        | some m => !(v > m))

/-- The semantic-threshold part of passes_criteria. -/
def scoreCheck (sc : SemanticConfig) (p : PropertyData) : Bool :=
  if sc.enable_semantic_search then !(p.semantic_score < sc.min_semantic_score)
  else true

/-- passes_criteria: the three early-return blocks in source order. -/
def passes_criteria (fc : FiltersConfig) (sc : SemanticConfig) (p : PropertyData) : Bool :=
  priceCheck fc p && sqftCheck fc p && scoreCheck sc p

/-- The sort key of rank_by_semantic_relevance:
(x.get('semantic_score', 0), x.get('price_per_sqft', 0)); both keys are always
present in the dict, so the second may be None. -/
def sortKey (p : PropertyData) : Rat × Option Rat :=
  (p.semantic_score, p.price_per_sqft)

/-- Python key comparison k1 < k2 for the tuple keys: the second components
are compared only on a tie of the first, and comparing None with a number
raises TypeError (modelled by Except.error). -/
def pyLtKey (k1 k2 : Rat × Option Rat) : Except Unit Bool :=
  if k1.1 = k2.1 then
    match k1.2, k2.2 with
    | none, none => .ok false
    | some a, some b => .ok (decide (a < b))
    | _, _ => .error ()
  else .ok (decide (k1.1 < k2.1))

/-- Insert into a descending-sorted list, keeping the inserted element before
any element with an equal key (the inserted element is earlier in the input,
so this is exactly Python's stable descending sort). -/
def insertDesc (x : PropertyData) : List PropertyData → Except Unit (List PropertyData)
  | [] => .ok [x]
  | y :: ys => do
    let lt ← pyLtKey (sortKey x) (sortKey y)
    if lt then do
      let rest ← insertDesc x ys
      pure (y :: rest)
    else pure (x :: y :: ys)

/-- rank_by_semantic_relevance: Python's sorted(key, reverse=True) is the
unique stable descending sort, modelled by stable insertion; a comparison of
None with a number propagates TypeError. -/
def rank_by_semantic_relevance : List PropertyData → Except Unit (List PropertyData)
  | [] => .ok []
  | x :: xs => do
    let s ← rank_by_semantic_relevance xs
    insertDesc x s

/-- The pure sort key with the None fallback the source writes
(x.get('price_per_sqft', 0)); it agrees with sortKey whenever the
price-per-sqft field is present. -/
def key2 (p : PropertyData) : Rat × Rat :=
  (p.semantic_score, p.price_per_sqft.getD 0)

/-- Strict lexicographic order on the key pairs. -/
def lexLt (u v : Rat × Rat) : Prop :=
  u.1 < v.1 ∨ (u.1 = v.1 ∧ u.2 < v.2)

/-- Lexicographic order on the key pairs. -/
def lexLe (u v : Rat × Rat) : Prop :=
  u.1 < v.1 ∨ (u.1 = v.1 ∧ u.2 ≤ v.2)

/-- The descending ranking relation: x may come before y when y's key is
lexicographically at most x's. -/
def rankRel (x y : PropertyData) : Prop :=
  lexLe (key2 y) (key2 x)

instance (u v : Rat × Rat) : Decidable (lexLt u v) := by
  unfold lexLt
  exact inferInstance

instance (u v : Rat × Rat) : Decidable (lexLe u v) := by
  unfold lexLe
  exact inferInstance

instance : DecidableRel rankRel := fun x y => by
  unfold rankRel lexLe
  exact inferInstance

instance : IsTotal PropertyData rankRel := by
  constructor
  intro a b
  unfold rankRel lexLe
  rcases lt_trichotomy (key2 b).1 (key2 a).1 with h | h | h
  · exact Or.inl (Or.inl h)
  · rcases le_total (key2 b).2 (key2 a).2 with h2 | h2
    · exact Or.inl (Or.inr ⟨h, h2⟩)
    · exact Or.inr (Or.inr ⟨h.symm, h2⟩)
  · exact Or.inr (Or.inl h)

instance : IsTrans PropertyData rankRel := by
  constructor
  intro a b c hab hbc
  unfold rankRel lexLe at *
  rcases hbc with g | ⟨ge, g2⟩
  · rcases hab with h | ⟨he, h2⟩
    · exact Or.inl (g.trans h)
    · exact Or.inl (he ▸ g)
  · rcases hab with h | ⟨he, h2⟩
    · exact Or.inl (ge ▸ h)
    · exact Or.inr ⟨ge.trans he, g2.trans h2⟩

/-! Concrete inputs used by the theorems below. -/

/-- The query of the spec's walk-through scenario. -/
def scenario_query : String := "no one living above me, NOT a fixer-upper"

/-- A detached listing built in 2015 whose address contains none of the
heuristic keyword substrings. -/
def scenario_listing : PropertyData :=
  { address := "123 Main St", price := some 1500000, sqft := some 1200,
    price_per_sqft := some 1250, home_type := "SINGLE_FAMILY",
    lot_size := none, year_built := some 2015, semantic_score := 0 }

/-- A semantic section with scoring disabled. -/
def SEMANTIC_OFF : SemanticConfig :=
  { enable_semantic_search := false, min_semantic_score := 0.3 }

/-- A semantic section with scoring enabled and a zero minimum score. -/
def SEMANTIC_MIN_ZERO : SemanticConfig :=
  { enable_semantic_search := true, min_semantic_score := 0 }

/-- A listing record whose price field is missing (None). -/
def missing_price_listing : PropertyData :=
  { address := "1 A St", price := none, sqft := some 1500, price_per_sqft := none,
    home_type := "CONDO", lot_size := none, year_built := none, semantic_score := 0 }

/-- A listing record whose size field is missing (None). -/
def missing_sqft_listing : PropertyData :=
  { address := "1 A St", price := some 1500000, sqft := none, price_per_sqft := none,
    home_type := "CONDO", lot_size := none, year_built := none, semantic_score := 0 }

/-- A listing whose price and size are inside the default bounds. -/
def inbounds_listing : PropertyData :=
  { address := "1 A St", price := some 1500000, sqft := some 1500,
    price_per_sqft := some 1000, home_type := "CONDO", lot_size := none,
    year_built := none, semantic_score := 0 }

/-- Score 0.4, price-per-sqft missing (the sqft field was absent). -/
def tie_none_listing : PropertyData :=
  { address := "A", price := some 1200000, sqft := none, price_per_sqft := none,
    home_type := "TOWNHOUSE", lot_size := none, year_built := none,
    semantic_score := 0.4 }

/-- Score 0.4, price-per-sqft 900. -/
def tie_900_listing : PropertyData :=
  { address := "B", price := some 1350000, sqft := some 1500, price_per_sqft := some 900,
    home_type := "TOWNHOUSE", lot_size := none, year_built := none,
    semantic_score := 0.4 }

/-- Score 0.4, price-per-sqft 1100. -/
def tie_1100_listing : PropertyData :=
  { address := "C", price := some 1350000, sqft := some 1500, price_per_sqft := some 1100,
    home_type := "TOWNHOUSE", lot_size := none, year_built := none,
    semantic_score := 0.4 }

/-- A townhouse whose address contains the positional hint "top". -/
def townhouse_top_listing : PropertyData :=
  { address := "123 Top St", price := some 1500000, sqft := some 1200,
    price_per_sqft := some 1250, home_type := "TOWNHOUSE",
    lot_size := none, year_built := none, semantic_score := 0 }

/-- A condo at an ordinary street number containing the digit 4. -/
def condo_oak_listing : PropertyData :=
  { address := "456 Oak Ave", price := some 1500000, sqft := some 1200,
    price_per_sqft := some 1250, home_type := "CONDO",
    lot_size := none, year_built := none, semantic_score := 0 }

/-- A 1950 building (negative raw score under an old-building exclusion). -/
def old_year_listing : PropertyData :=
  { address := "1 Z St", price := none, sqft := none, price_per_sqft := none,
    home_type := "CONDO", lot_size := none, year_built := some 1950,
    semantic_score := 0 }

/-- The scenario listing with a renovation indicator in the address (raw score
above 1). -/
def renovated_listing : PropertyData :=
  { address := "Renovated 123 Main", price := none, sqft := none, price_per_sqft := none,
    home_type := "SINGLE_FAMILY", lot_size := none, year_built := some 2015,
    semantic_score := 0 }

/-- The interpreted record produced for the query "top floor". -/
def top_floor_interpreted : Interpreted :=
  { Interpreted.empty with preferences := ["top_floor_condo"] }

/-- A condo whose address carries a top-style indicator. -/
def condo_penthouse_listing : PropertyData :=
  { address := "Penthouse A", price := some 1500000, sqft := some 1200,
    price_per_sqft := some 1250, home_type := "CONDO", lot_size := none,
    year_built := none, semantic_score := 0 }

end SemanticHouseSearch

namespace SemanticHouseSearch

/-- The clamp at the end of calculate_semantic_score, when the raw total is
already inside the unit interval. -/
theorem score_eq_of_raw {i : InterpretedFilters} {q : String} {p : PropertyData}
    {x : Rat} (h : raw_score i q p = x) (h0 : 0 ≤ x) (h1 : x ≤ 1) :
    (calculate_semantic_score i q p).1 = x := by
  simp [calculate_semantic_score, h, min_eq_left h1, max_eq_right h0]

/-- The clamp truncates a non-positive raw total to 0. -/
theorem score_zero_of_raw {i : InterpretedFilters} {q : String} {p : PropertyData}
    {x : Rat} (h : raw_score i q p = x) (hx : x ≤ 0) :
    (calculate_semantic_score i q p).1 = 0 := by
  have h1 : min x 1 = x := min_eq_left (hx.trans zero_le_one)
  simp [calculate_semantic_score, h, h1, max_eq_left hx]

/-- The clamp truncates a raw total of at least 1 to 1. -/
theorem score_one_of_raw {i : InterpretedFilters} {q : String} {p : PropertyData}
    {x : Rat} (h : raw_score i q p = x) (hx : 1 ≤ x) :
    (calculate_semantic_score i q p).1 = 1 := by
  have h1 : min x 1 = 1 := min_eq_right hx
  simp [calculate_semantic_score, h, h1, max_eq_right (zero_le_one.trans le_rfl)]

/-- The contribution list of the walk-through scenario, computed. -/
theorem scenario_contribs :
    contribs (interpret_semantic_query scenario_query) scenario_query
      scenario_listing =
      [(0.3, "Home type: SINGLE_FAMILY", "Matches preferred home type: SINGLE_FAMILY"),
       (0.5, "No one above", "SINGLE_FAMILY - no neighbors above"),
       (0.2, "Recent construction", "Built in 2015 - likely good condition")] := rfl

/-- The raw total of the walk-through scenario is 0.3 + 0.5 + 0.2 = 1. -/
theorem scenario_raw_score :
    raw_score (interpret_semantic_query scenario_query) scenario_query
      scenario_listing = 1 := by
  unfold raw_score
  rw [scenario_contribs]
  norm_num

/-- C1: the claim predicts total score 0.7 with two match labels for the
scenario query against the 2015 detached listing; on the code the home-type
preference rule also fires (the "no one living above" mapping adds TOWNHOUSE
and SINGLE_FAMILY to home-type preferences), so the score is not 0.7 and the
label count is not 2. -/
theorem scenario_score_not_seven_tenths :
    ¬((calculate_semantic_score (interpret_semantic_query scenario_query)
        scenario_query scenario_listing).1 = 0.7 ∧
      ((calculate_semantic_score (interpret_semantic_query scenario_query)
        scenario_query scenario_listing).2.1).length = 2) := by
  rintro ⟨h, _⟩
  rw [score_eq_of_raw scenario_raw_score (by norm_num) (by norm_num)] at h
  norm_num at h

/-- C1 (amended): for the scenario query against the 2015 detached listing the
scorer returns total score exactly 1.0 (0.3 home-type + 0.5 no-one-above +
0.2 recent-construction) and exactly the three match labels, in evaluation
order, with their explanations. -/
theorem scenario_score_one_three_labels :
    (calculate_semantic_score (interpret_semantic_query scenario_query)
        scenario_query scenario_listing).1 = 1 ∧
    (calculate_semantic_score (interpret_semantic_query scenario_query)
        scenario_query scenario_listing).2.1 =
      ["Home type: SINGLE_FAMILY", "No one above", "Recent construction"] ∧
    (calculate_semantic_score (interpret_semantic_query scenario_query)
        scenario_query scenario_listing).2.2 =
      ["Matches preferred home type: SINGLE_FAMILY",
       "SINGLE_FAMILY - no neighbors above",
       "Built in 2015 - likely good condition"] :=
  ⟨score_eq_of_raw scenario_raw_score (by norm_num) (by norm_num), rfl, rfl⟩

/-- C2: the claim predicts that a listing missing a required numeric field is
excluded by the hard-filter step when the corresponding bound is configured;
on the code the bound check is skipped for a missing field, so both a
missing-price listing (under the default price bounds) and a missing-size
listing (under the default minimum size) pass passes_criteria. -/
theorem missing_required_fields_not_excluded :
    DEFAULT_FILTERS.min_price = some 1000000 ∧
    DEFAULT_FILTERS.min_sqft = some 1000 ∧
    passes_criteria DEFAULT_FILTERS SEMANTIC_OFF missing_price_listing = true ∧
    passes_criteria DEFAULT_FILTERS SEMANTIC_OFF missing_sqft_listing = true := by
  decide

/-- C2 (amended): a listing missing a required numeric field is not excluded
by the hard bounds: a missing price passes the whole price block and a missing
size passes the whole size block, so inclusion is decided by the semantic
score check alone; no exception arises (passes_criteria is total). -/
theorem missing_fields_skip_hard_bounds (fc : FiltersConfig) (sc : SemanticConfig)
    (p : PropertyData) (hp : p.price = none) (hs : p.sqft = none) :
    priceCheck fc p = true ∧ sqftCheck fc p = true ∧
    passes_criteria fc sc p = scoreCheck sc p := by
  have h1 : priceCheck fc p = true := by unfold priceCheck; rw [hp]
  have h2 : sqftCheck fc p = true := by unfold sqftCheck; rw [hs]
  refine ⟨h1, h2, ?_⟩
  unfold passes_criteria
  rw [h1, h2]
  simp

/-- C2 witness: the amended statement at the concrete missing-price,
missing-size record under the default bounds. -/
theorem missing_fields_skip_hard_bounds_witness :
    priceCheck DEFAULT_FILTERS
        { missing_price_listing with sqft := none } = true ∧
    sqftCheck DEFAULT_FILTERS
        { missing_price_listing with sqft := none } = true ∧
    passes_criteria DEFAULT_FILTERS SEMANTIC_OFF
        { missing_price_listing with sqft := none } =
      scoreCheck SEMANTIC_OFF { missing_price_listing with sqft := none } :=
  missing_fields_skip_hard_bounds DEFAULT_FILTERS SEMANTIC_OFF
    { missing_price_listing with sqft := none } rfl rfl

/-- C3: the claim predicts that with an empty query and semantic scoring
enabled, an in-bounds listing is included (hard filters alone decide); on the
code the min-score check still applies, and under the default configuration
(min_semantic_score 0.3) the zero-scored listing is excluded. -/
theorem empty_query_listing_dropped_by_min_score :
    interpret_semantic_query "" = .emptyDict ∧
    (calculate_semantic_score (interpret_semantic_query "") "" inbounds_listing).1 = 0 ∧
    priceCheck DEFAULT_FILTERS inbounds_listing = true ∧
    sqftCheck DEFAULT_FILTERS inbounds_listing = true ∧
    DEFAULT_SEMANTIC.enable_semantic_search = true ∧
    passes_criteria DEFAULT_FILTERS DEFAULT_SEMANTIC inbounds_listing = false := by
  refine ⟨rfl, score_eq_of_raw rfl le_rfl (by norm_num), rfl, rfl, rfl, ?_⟩
  have hs : scoreCheck DEFAULT_SEMANTIC inbounds_listing = false := by
    simp only [scoreCheck, DEFAULT_SEMANTIC, inbounds_listing]
    norm_num
  unfold passes_criteria
  rw [hs]
  simp

/-- C3 (amended): with an empty query the interpreted dict is empty and every
listing's score is 0.0, but inclusion is decided by the hard filters together
with the min-score check on that zero score: a listing passes if and only if
its price and size checks pass and the configured minimum score is at most 0. -/
theorem empty_query_zero_score_inclusion (fc : FiltersConfig) (sc : SemanticConfig)
    (p : PropertyData) (hen : sc.enable_semantic_search = true)
    (hsc : p.semantic_score = (calculate_semantic_score
        (interpret_semantic_query "") "" p).1) :
    interpret_semantic_query "" = .emptyDict ∧
    (calculate_semantic_score (interpret_semantic_query "") "" p).1 = 0 ∧
    (passes_criteria fc sc p = true ↔
      (priceCheck fc p = true ∧ sqftCheck fc p = true ∧ sc.min_semantic_score ≤ 0)) := by
  have hint : interpret_semantic_query "" = .emptyDict := rfl
  have hz : (calculate_semantic_score (interpret_semantic_query "") "" p).1 = 0 :=
    score_eq_of_raw rfl le_rfl (by norm_num)
  refine ⟨hint, hz, ?_⟩
  rw [hz] at hsc
  have hsco : scoreCheck sc p = !(decide ((0 : Rat) < sc.min_semantic_score)) := by
    simp [scoreCheck, hen, hsc]
  unfold passes_criteria
  rw [hsco]
  simp only [Bool.and_eq_true, Bool.not_eq_true', decide_eq_false_iff_not, not_lt]
  tauto

/-- C3 witness: the amended statement at the in-bounds listing under enabled
scoring with a zero minimum score (the listing is then included). -/
theorem empty_query_zero_score_inclusion_witness :
    interpret_semantic_query "" = .emptyDict ∧
    (calculate_semantic_score (interpret_semantic_query "") "" inbounds_listing).1 = 0 ∧
    (passes_criteria DEFAULT_FILTERS SEMANTIC_MIN_ZERO inbounds_listing = true ↔
      (priceCheck DEFAULT_FILTERS inbounds_listing = true ∧
       sqftCheck DEFAULT_FILTERS inbounds_listing = true ∧
       SEMANTIC_MIN_ZERO.min_semantic_score ≤ 0)) :=
  empty_query_zero_score_inclusion DEFAULT_FILTERS SEMANTIC_MIN_ZERO
    inbounds_listing rfl rfl

/-- C4: the ranking key reads price_per_sqft with a fallback of 0, but the key
is always present in the record (holding None when the sqft field was
missing), so on a score tie Python compares None with a number and sorted
raises TypeError: with two listings tied at score 0.4, one missing
price-per-sqft and one at 900, the ranking step fails instead of treating the
missing value as 0. -/
theorem rank_raises_on_missing_ppsf_tie :
    rank_by_semantic_relevance [tie_none_listing, tie_900_listing] = .error () := by
  simp [rank_by_semantic_relevance, insertDesc, pyLtKey, sortKey,
    tie_none_listing, tie_900_listing, Bind.bind, Except.bind]

/-- C6: for every listing and interpreted query, the returned score lies in
[0.0, 1.0]; a raw weighted sum below 0 is truncated to 0.0 and a sum above 1
is truncated to 1.0 (never wrapped). -/
theorem score_clamped_unit_interval (i : InterpretedFilters) (q : String)
    (p : PropertyData) :
    0 ≤ (calculate_semantic_score i q p).1 ∧
    (calculate_semantic_score i q p).1 ≤ 1 ∧
    (raw_score i q p < 0 → (calculate_semantic_score i q p).1 = 0) ∧
    (1 < raw_score i q p → (calculate_semantic_score i q p).1 = 1) := by
  refine ⟨le_max_left 0 _, ?_, ?_, ?_⟩
  · exact max_le zero_le_one (min_le_right _ 1)
  · intro h
    exact score_zero_of_raw rfl h.le
  · intro h
    exact score_one_of_raw rfl h.le

/-- Extending with a mapping appends category-wise. -/
theorem extendWith_cat (f : Interpreted) (m : Mapping) (c : Cat) :
    (f.extendWith m).cat c = f.cat c ++ m.cat c := by
  cases c <;> simp [Interpreted.extendWith, Interpreted.cat, Mapping.cat]

/-- Deduplication acts category-wise. -/
theorem dedupAll_cat (f : Interpreted) (c : Cat) :
    (f.dedupAll).cat c = (f.cat c).dedup := by
  cases c <;> rfl

/-- The empty interpreted record has empty categories. -/
theorem empty_cat (c : Cat) : Interpreted.empty.cat c = [] := by
  cases c <;> rfl

/-- Membership after the apply-mappings fold: a tag is collected exactly when
it comes from the accumulator or from some matching rule of the list. -/
theorem foldl_extend_mem (ql : String) (c : Cat) (t : String) :
    ∀ (l : List (String × Mapping)) (acc : Interpreted),
      (t ∈ (l.foldl
          (fun acc p => if strContains ql p.1 then acc.extendWith p.2 else acc)
          acc).cat c ↔
        t ∈ acc.cat c ∨ ∃ p ∈ l, strContains ql p.1 = true ∧ t ∈ p.2.cat c) := by
  intro l
  induction l with
  | nil => simp
  | cons hd tl ih =>
    intro acc
    simp only [List.foldl_cons]
    by_cases h : strContains ql hd.1 = true
    · simp only [h, if_true]
      rw [ih]
      simp [extendWith_cat, h, or_assoc]
    · rw [Bool.not_eq_true] at h
      simp only [h, Bool.false_eq_true, if_false]
      rw [ih]
      simp [h]

/-- C7: interpret unions into each category exactly the tags of the rules
whose phrase key occurs case-insensitively as a substring of the query (all
overlapping keys fire, with no precedence), every category list is
duplicate-free, and the empty query yields all-empty categories. -/
theorem interpret_mem_nodup (q : String) (c : Cat) :
    ((interpret_semantic_query q).get c).Nodup ∧
    (∀ t, t ∈ (interpret_semantic_query q).get c ↔
      ∃ p ∈ semantic_mappings, strContains (pyLower q) p.1 = true ∧ t ∈ p.2.cat c) ∧
    (interpret_semantic_query "").get c = [] := by
  refine ⟨?_, ?_, rfl⟩
  · by_cases hq : q = ""
    · subst hq
      exact List.Pairwise.nil
    · unfold interpret_semantic_query
      rw [if_neg hq]
      show ((Interpreted.dedupAll _).cat c).Nodup
      rw [dedupAll_cat]
      exact List.nodup_dedup _
  · intro t
    by_cases hq : q = ""
    · subst hq
      constructor
      · intro h
        exact absurd h (List.not_mem_nil t)
      · rintro ⟨p, hp, hs, -⟩
        have hfalse : ∀ p ∈ semantic_mappings, strContains (pyLower "") p.1 = false := by
          decide
        rw [hfalse p hp] at hs
        exact absurd hs Bool.false_ne_true
    · unfold interpret_semantic_query
      rw [if_neg hq]
      show t ∈ (Interpreted.dedupAll _).cat c ↔ _
      rw [dedupAll_cat, List.mem_dedup, foldl_extend_mem, empty_cat]
      simp

/-- A list is always preceded by itself under startsWithList. -/
theorem startsWithList_append (l r : List Char) : startsWithList (l ++ r) l = true := by
  induction l with
  | nil => cases r <;> rfl
  | cons c cs ih => simp [startsWithList, ih]

/-- A string extending a left part that does not begin the target cannot equal
the target. -/
theorem append_left_ne {a t : String} (h : startsWithList t.data a.data = false)
    (s : String) : a ++ s ≠ t := by
  intro he
  have h2 : startsWithList t.data a.data = true := by
    rw [← he, String.data_append]
    exact startsWithList_append a.data s.data
  rw [h] at h2
  exact absurd h2 Bool.false_ne_true

/-- Only the home-type block yields a "Home type: "-labelled contribution. -/
theorem homeTypeContrib_label {f : Interpreted} {p : PropertyData} {c : Contribution}
    (h : c ∈ homeTypeContrib f p) :
    c.2.1 = "Home type: " ++ pyUpper p.home_type := by
  unfold homeTypeContrib at h
  split at h <;> simp_all

/-- The top-floor block only yields the two tier labels. -/
theorem topFloorContrib_label {f : Interpreted} {p : PropertyData} {c : Contribution}
    (h : c ∈ topFloorContrib f p) :
    c.2.1 = "Top floor unit" ∨ c.2.1 = "High floor unit" := by
  unfold topFloorContrib at h
  split_ifs at h <;> simp_all

/-- The no-one-above block only yields its label. -/
theorem noOneAboveContrib_label {q : String} {p : PropertyData} {c : Contribution}
    (h : c ∈ noOneAboveContrib q p) : c.2.1 = "No one above" := by
  unfold noOneAboveContrib at h
  split_ifs at h <;> simp_all

/-- The condition block only yields its two labels. -/
theorem conditionContrib_label {f : Interpreted} {p : PropertyData} {c : Contribution}
    (h : c ∈ conditionContrib f p) :
    c.2.1 = "Recent construction" ∨ c.2.1 = "Recently renovated" := by
  unfold conditionContrib at h
  split at h
  · rw [List.mem_append] at h
    rcases h with h | h
    · split at h
      · split at h <;> simp_all
      · simp_all
    · split at h <;> simp_all
  · simp_all

/-- The architectural-exclusion block only yields its label. -/
theorem oldArchContrib_label {f : Interpreted} {p : PropertyData} {c : Contribution}
    (h : c ∈ oldArchContrib f p) : c.2.1 = "Old architecture" := by
  unfold oldArchContrib at h
  split_ifs at h <;> simp_all

/-- The old-building block only yields its label. -/
theorem oldBuildingContrib_label {f : Interpreted} {p : PropertyData} {c : Contribution}
    (h : c ∈ oldBuildingContrib f p) : c.2.1 = "Older building" := by
  unfold oldBuildingContrib at h
  split at h
  · split at h
    · split at h <;> simp_all
    · simp_all
  · simp_all

/-- The modern-architecture block only yields its label. -/
theorem modernContrib_label {f : Interpreted} {p : PropertyData} {c : Contribution}
    (h : c ∈ modernContrib f p) : c.2.1 = "Modern architecture" := by
  unfold modernContrib at h
  split_ifs at h <;> simp_all

/-- The natural-light block only yields its label. -/
theorem lightContrib_label {f : Interpreted} {p : PropertyData} {c : Contribution}
    (h : c ∈ lightContrib f p) : c.2.1 = "Natural light" := by
  unfold lightContrib at h
  split_ifs at h <;> simp_all

/-- The neighborhood-preference block only yields its label. -/
theorem nbhdPrefContrib_label {f : Interpreted} {p : PropertyData} {c : Contribution}
    (h : c ∈ nbhdPrefContrib f p) : c.2.1 = "Desirable neighborhood" := by
  unfold nbhdPrefContrib at h
  split_ifs at h <;> simp_all

/-- The neighborhood-exclusion block only yields its label. -/
theorem nbhdExclContrib_label {f : Interpreted} {p : PropertyData} {c : Contribution}
    (h : c ∈ nbhdExclContrib f p) : c.2.1 = "Less desirable area" := by
  unfold nbhdExclContrib at h
  split_ifs at h <;> simp_all

/-- The outdoor-space block only yields its label. -/
theorem outdoorContrib_label {f : Interpreted} {p : PropertyData} {c : Contribution}
    (h : c ∈ outdoorContrib f p) : c.2.1 = "Outdoor space" := by
  unfold outdoorContrib at h
  split at h
  · split at h
    · split at h <;> simp_all
    · simp_all
  · simp_all

/-- The parking block only yields its label. -/
theorem parkingContrib_label {f : Interpreted} {p : PropertyData} {c : Contribution}
    (h : c ∈ parkingContrib f p) : c.2.1 = "Parking available" := by
  unfold parkingContrib at h
  split_ifs at h <;> simp_all

/-- The lifestyle-exclusion block only yields its label. -/
theorem quietExclContrib_label {f : Interpreted} {p : PropertyData} {c : Contribution}
    (h : c ∈ quietExclContrib f p) : c.2.1 = "Too quiet/residential" := by
  unfold quietExclContrib at h
  split_ifs at h <;> simp_all

/-- Full characterization of the top-floor block. -/
theorem topFloorContrib_mem_iff {f : Interpreted} {p : PropertyData} {c : Contribution} :
    c ∈ topFloorContrib f p ↔
      ("top_floor_condo" ∈ f.preferences ∧ pyUpper p.home_type = "CONDO" ∧
        ((anyContains (pyLower p.address) ["top", "penthouse", "roof", "terrace"] = true ∧
          c = (0.4, "Top floor unit", "Likely top floor condo - no one living above")) ∨
         (anyContains (pyLower p.address) ["top", "penthouse", "roof", "terrace"] = false ∧
          anyContains (pyLower p.address) ["4", "5", "6", "7", "8", "9"] = true ∧
          c = (0.2, "High floor unit", "High floor condo - reduced noise from above")))) := by
  unfold topFloorContrib
  split_ifs with h1 h2 h3 h4 <;> simp_all

/-- Full characterization of the no-one-above block. -/
theorem noOneAboveContrib_mem_iff {q : String} {p : PropertyData} {c : Contribution} :
    c ∈ noOneAboveContrib q p ↔
      ((strContains (pyLower q) "no one living above" = true ∨
        strContains (pyLower q) "nobody above" = true) ∧
       pyUpper p.home_type ∈ (["TOWNHOUSE", "SINGLE_FAMILY"] : List String) ∧
       c = (0.5, "No one above", pyUpper p.home_type ++ " - no neighbors above")) := by
  unfold noOneAboveContrib
  split_ifs with h1 h2 <;> simp_all

/-- Membership in the full contribution list decomposes into the thirteen
blocks. -/
theorem contribs_cases {i : InterpretedFilters} {q : String} {p : PropertyData}
    {c : Contribution} (h : c ∈ contribs i q p) :
    ∃ f, i = .filters f ∧
      (c ∈ homeTypeContrib f p ∨ c ∈ topFloorContrib f p ∨ c ∈ noOneAboveContrib q p ∨
       c ∈ conditionContrib f p ∨ c ∈ oldArchContrib f p ∨ c ∈ oldBuildingContrib f p ∨
       c ∈ modernContrib f p ∨ c ∈ lightContrib f p ∨ c ∈ nbhdPrefContrib f p ∨
       c ∈ nbhdExclContrib f p ∨ c ∈ outdoorContrib f p ∨ c ∈ parkingContrib f p ∨
       c ∈ quietExclContrib f p) := by
  cases i with
  | emptyDict => simp [contribs] at h
  | filters f =>
    refine ⟨f, rfl, ?_⟩
    simpa [contribs, List.mem_append, or_assoc] using h

/-- A contribution of any block is in the full contribution list. -/
theorem mem_contribs_filters {f : Interpreted} {q : String} {p : PropertyData}
    {c : Contribution}
    (h : c ∈ homeTypeContrib f p ∨ c ∈ topFloorContrib f p ∨ c ∈ noOneAboveContrib q p ∨
       c ∈ conditionContrib f p ∨ c ∈ oldArchContrib f p ∨ c ∈ oldBuildingContrib f p ∨
       c ∈ modernContrib f p ∨ c ∈ lightContrib f p ∨ c ∈ nbhdPrefContrib f p ∨
       c ∈ nbhdExclContrib f p ∨ c ∈ outdoorContrib f p ∨ c ∈ parkingContrib f p ∨
       c ∈ quietExclContrib f p) :
    c ∈ contribs (.filters f) q p := by
  simpa [contribs, List.mem_append, or_assoc] using h

/-- A contribution labelled "No one above" can only come from the
no-one-above block. -/
theorem mem_noOneAbove_of_label {f : Interpreted} {q : String} {p : PropertyData}
    {c : Contribution} (h : c ∈ contribs (.filters f) q p)
    (hl : c.2.1 = "No one above") : c ∈ noOneAboveContrib q p := by
  obtain ⟨f2, hf2, hcase⟩ := contribs_cases h
  injection hf2 with he
  subst he
  rcases hcase with h | h | h | h | h | h | h | h | h | h | h | h | h
  · have h2 := homeTypeContrib_label h
    rw [hl] at h2
    exact absurd h2.symm (append_left_ne (by decide) _)
  · rcases topFloorContrib_label h with h2 | h2 <;> rw [hl] at h2 <;>
      exact absurd h2 (by decide)
  · exact h
  · rcases conditionContrib_label h with h2 | h2 <;> rw [hl] at h2 <;>
      exact absurd h2 (by decide)
  · have h2 := oldArchContrib_label h
    rw [hl] at h2
    exact absurd h2 (by decide)
  · have h2 := oldBuildingContrib_label h
    rw [hl] at h2
    exact absurd h2 (by decide)
  · have h2 := modernContrib_label h
    rw [hl] at h2
    exact absurd h2 (by decide)
  · have h2 := lightContrib_label h
    rw [hl] at h2
    exact absurd h2 (by decide)
  · have h2 := nbhdPrefContrib_label h
    rw [hl] at h2
    exact absurd h2 (by decide)
  · have h2 := nbhdExclContrib_label h
    rw [hl] at h2
    exact absurd h2 (by decide)
  · have h2 := outdoorContrib_label h
    rw [hl] at h2
    exact absurd h2 (by decide)
  · have h2 := parkingContrib_label h
    rw [hl] at h2
    exact absurd h2 (by decide)
  · have h2 := quietExclContrib_label h
    rw [hl] at h2
    exact absurd h2 (by decide)

/-- A contribution carrying one of the two elevated-unit labels can only come
from the top-floor block. -/
theorem mem_topFloor_of_label {f : Interpreted} {q : String} {p : PropertyData}
    {c : Contribution} (h : c ∈ contribs (.filters f) q p)
    (hl : c.2.1 = "Top floor unit" ∨ c.2.1 = "High floor unit") :
    c ∈ topFloorContrib f p := by
  obtain ⟨f2, hf2, hcase⟩ := contribs_cases h
  injection hf2 with he
  subst he
  rcases hcase with h | h | h | h | h | h | h | h | h | h | h | h | h
  · have h2 := homeTypeContrib_label h
    rcases hl with hl | hl <;> rw [hl] at h2 <;>
      exact absurd h2.symm (append_left_ne (by decide) _)
  · exact h
  · have h2 := noOneAboveContrib_label h
    rcases hl with hl | hl <;> rw [hl] at h2 <;> exact absurd h2 (by decide)
  · rcases conditionContrib_label h with h2 | h2 <;> rcases hl with hl | hl <;>
      rw [hl] at h2 <;> exact absurd h2 (by decide)
  · have h2 := oldArchContrib_label h
    rcases hl with hl | hl <;> rw [hl] at h2 <;> exact absurd h2 (by decide)
  · have h2 := oldBuildingContrib_label h
    rcases hl with hl | hl <;> rw [hl] at h2 <;> exact absurd h2 (by decide)
  · have h2 := modernContrib_label h
    rcases hl with hl | hl <;> rw [hl] at h2 <;> exact absurd h2 (by decide)
  · have h2 := lightContrib_label h
    rcases hl with hl | hl <;> rw [hl] at h2 <;> exact absurd h2 (by decide)
  · have h2 := nbhdPrefContrib_label h
    rcases hl with hl | hl <;> rw [hl] at h2 <;> exact absurd h2 (by decide)
  · have h2 := nbhdExclContrib_label h
    rcases hl with hl | hl <;> rw [hl] at h2 <;> exact absurd h2 (by decide)
  · have h2 := outdoorContrib_label h
    rcases hl with hl | hl <;> rw [hl] at h2 <;> exact absurd h2 (by decide)
  · have h2 := parkingContrib_label h
    rcases hl with hl | hl <;> rw [hl] at h2 <;> exact absurd h2 (by decide)
  · have h2 := quietExclContrib_label h
    rcases hl with hl | hl <;> rw [hl] at h2 <;> exact absurd h2 (by decide)

/-- C8: the +0.5 "No one above" contribution is added exactly when the
listing's (upper-cased) home type is TOWNHOUSE or SINGLE_FAMILY and the
lower-cased raw query contains "no one living above" or "nobody above": a
containment test on the raw query text, not on the interpreted tag sets. -/
theorem no_one_above_fires_iff_phrase (q : String) (p : PropertyData) :
    (0.5, "No one above", pyUpper p.home_type ++ " - no neighbors above") ∈
        contribs (interpret_semantic_query q) q p ↔
      ((strContains (pyLower q) "no one living above" = true ∨
        strContains (pyLower q) "nobody above" = true) ∧
       pyUpper p.home_type ∈ (["TOWNHOUSE", "SINGLE_FAMILY"] : List String)) := by
  constructor
  · intro h
    obtain ⟨f, hi, -⟩ := contribs_cases h
    rw [hi] at h
    have h2 := mem_noOneAbove_of_label h rfl
    have h3 := noOneAboveContrib_mem_iff.mp h2
    exact ⟨h3.1, h3.2.1⟩
  · rintro ⟨hph, hht⟩
    have hq : q ≠ "" := by
      rintro rfl
      rcases hph with h | h <;> exact absurd h (by decide)
    unfold interpret_semantic_query
    rw [if_neg hq]
    exact mem_contribs_filters (Or.inr (Or.inr (Or.inl
      (noOneAboveContrib_mem_iff.mpr ⟨hph, hht, rfl⟩))))

/-- C9: the claim predicts an elevated-unit contribution for every listing
with the top-floor preference and a positional address hint, but the code
gates the whole block on home type CONDO: this townhouse with "top" in its
address and the preference active receives no contribution at all. -/
theorem elevated_unit_missing_for_non_condo :
    "top_floor_condo" ∈ (interpret_semantic_query "top floor").get .preferences ∧
    strContains (pyLower townhouse_top_listing.address) "top" = true ∧
    pyUpper townhouse_top_listing.home_type = "TOWNHOUSE" ∧
    (calculate_semantic_score (interpret_semantic_query "top floor") "top floor"
        townhouse_top_listing).2.1 = [] := by
  refine ⟨by decide, by decide, rfl, rfl⟩

/-- C9 (amended): when the top-floor preference is present and the listing's
home type is CONDO, a listing whose address contains a positional hint
receives exactly one elevated-unit contribution: +0.4 when a top-style
indicator is present, otherwise +0.2 on a high-floor digit; the two tiers are
mutually exclusive, the indicator tier winning. -/
theorem elevated_unit_tiers_condo (f : Interpreted) (q : String) (p : PropertyData)
    (hpref : "top_floor_condo" ∈ f.preferences)
    (hcondo : pyUpper p.home_type = "CONDO")
    (hhint : anyContains (pyLower p.address) ["top", "penthouse", "roof", "terrace"] = true ∨
      anyContains (pyLower p.address) ["4", "5", "6", "7", "8", "9"] = true) :
    (anyContains (pyLower p.address) ["top", "penthouse", "roof", "terrace"] = true →
      ((0.4, "Top floor unit", "Likely top floor condo - no one living above") ∈
          contribs (.filters f) q p ∧
       (0.2, "High floor unit", "High floor condo - reduced noise from above") ∉
          contribs (.filters f) q p)) ∧
    (anyContains (pyLower p.address) ["top", "penthouse", "roof", "terrace"] = false →
      ((0.2, "High floor unit", "High floor condo - reduced noise from above") ∈
          contribs (.filters f) q p ∧
       (0.4, "Top floor unit", "Likely top floor condo - no one living above") ∉
          contribs (.filters f) q p)) := by
  constructor
  · intro htop
    constructor
    · exact mem_contribs_filters (Or.inr (Or.inl (topFloorContrib_mem_iff.mpr
        ⟨hpref, hcondo, Or.inl ⟨htop, rfl⟩⟩)))
    · intro hmem
      have h2 := topFloorContrib_mem_iff.mp (mem_topFloor_of_label hmem (Or.inr rfl))
      rcases h2.2.2 with ⟨-, hc⟩ | ⟨hfalse, -, -⟩
      · have h3 := congrArg (fun x : Contribution => x.2.1) hc
        exact absurd h3 (by decide)
      · rw [htop] at hfalse
        exact absurd hfalse (by decide)
  · intro htop
    have hdig : anyContains (pyLower p.address) ["4", "5", "6", "7", "8", "9"] = true := by
      rcases hhint with h | h
      · rw [htop] at h
        exact absurd h (by decide)
      · exact h
    constructor
    · exact mem_contribs_filters (Or.inr (Or.inl (topFloorContrib_mem_iff.mpr
        ⟨hpref, hcondo, Or.inr ⟨htop, hdig, rfl⟩⟩)))
    · intro hmem
      have h2 := topFloorContrib_mem_iff.mp (mem_topFloor_of_label hmem (Or.inl rfl))
      rcases h2.2.2 with ⟨htrue, -⟩ | ⟨-, -, hc⟩
      · rw [htop] at htrue
        exact absurd htrue (by decide)
      · have h3 := congrArg (fun x : Contribution => x.2.1) hc
        exact absurd h3 (by decide)

/-- C9 witness: the amended statement at a condo with "penthouse" in the
address and the top-floor preference interpreted from "top floor". -/
theorem elevated_unit_tiers_condo_witness :
    (anyContains (pyLower condo_penthouse_listing.address)
        ["top", "penthouse", "roof", "terrace"] = true →
      ((0.4, "Top floor unit", "Likely top floor condo - no one living above") ∈
          contribs (.filters top_floor_interpreted) "top floor" condo_penthouse_listing ∧
       (0.2, "High floor unit", "High floor condo - reduced noise from above") ∉
          contribs (.filters top_floor_interpreted) "top floor" condo_penthouse_listing)) ∧
    (anyContains (pyLower condo_penthouse_listing.address)
        ["top", "penthouse", "roof", "terrace"] = false →
      ((0.2, "High floor unit", "High floor condo - reduced noise from above") ∈
          contribs (.filters top_floor_interpreted) "top floor" condo_penthouse_listing ∧
       (0.4, "Top floor unit", "Likely top floor condo - no one living above") ∉
          contribs (.filters top_floor_interpreted) "top floor" condo_penthouse_listing)) :=
  elevated_unit_tiers_condo top_floor_interpreted "top floor" condo_penthouse_listing
    (by decide) rfl (Or.inl (by decide))

/-- C10: with the top-floor preference present, home type CONDO, and no
top-style indicator in the address, the +0.2 high-floor tier fires exactly
when the (lower-cased) address contains one of the digit characters 4..9
anywhere in the string, street numbers included. -/
theorem high_floor_digit_iff (f : Interpreted) (q : String) (p : PropertyData)
    (hpref : "top_floor_condo" ∈ f.preferences)
    (hcondo : pyUpper p.home_type = "CONDO")
    (hnotop : anyContains (pyLower p.address) ["top", "penthouse", "roof", "terrace"] = false) :
    ((0.2, "High floor unit", "High floor condo - reduced noise from above") ∈
        contribs (.filters f) q p ↔
      anyContains (pyLower p.address) ["4", "5", "6", "7", "8", "9"] = true) := by
  constructor
  · intro h
    have h2 := topFloorContrib_mem_iff.mp (mem_topFloor_of_label h (Or.inr rfl))
    rcases h2.2.2 with ⟨htrue, -⟩ | ⟨-, hdig, -⟩
    · rw [hnotop] at htrue
      exact absurd htrue (by decide)
    · exact hdig
  · intro hdig
    exact mem_contribs_filters (Or.inr (Or.inl (topFloorContrib_mem_iff.mpr
      ⟨hpref, hcondo, Or.inr ⟨hnotop, hdig, rfl⟩⟩)))

/-- C10 witness: the address "456 Oak Ave" contains no top-style indicator and
contains the digit 4 inside its street number, so the condo receives the +0.2
high-floor contribution. -/
theorem high_floor_digit_iff_witness :
    ((0.2, "High floor unit", "High floor condo - reduced noise from above") ∈
        contribs (.filters top_floor_interpreted) "top floor" condo_oak_listing ↔
      anyContains (pyLower condo_oak_listing.address) ["4", "5", "6", "7", "8", "9"] = true) :=
  high_floor_digit_iff top_floor_interpreted "top floor" condo_oak_listing
    (by decide) rfl (by decide)

/-- Strict lexicographic order is irreflexive. -/
theorem lexLt_irrefl (u : Rat × Rat) : ¬ lexLt u u := by
  unfold lexLt
  rintro (h | ⟨-, h⟩) <;> exact lt_irrefl _ h

/-- The lexicographic orders are complements of each other. -/
theorem lexLe_iff_not_lt (u v : Rat × Rat) : lexLe u v ↔ ¬ lexLt v u := by
  unfold lexLe lexLt
  constructor
  · rintro (h | ⟨he, h2⟩) (g | ⟨ge, g2⟩)
    · exact lt_asymm h g
    · exact absurd h (by rw [ge]; exact lt_irrefl _)
    · exact absurd g (by rw [he]; exact lt_irrefl _)
    · exact lt_irrefl _ (lt_of_le_of_lt h2 g2)
  · intro h
    rcases lt_trichotomy u.1 v.1 with g | g | g
    · exact Or.inl g
    · rcases le_or_lt u.2 v.2 with g2 | g2
      · exact Or.inr ⟨g, g2⟩
      · exact absurd (Or.inr ⟨g.symm, g2⟩) h
    · exact absurd (Or.inl g) h

/-- The ranking relation holds exactly when the first key does not compare
strictly below the second. -/
theorem rankRel_iff (x y : PropertyData) :
    rankRel x y ↔ ¬ lexLt (key2 x) (key2 y) :=
  lexLe_iff_not_lt (key2 y) (key2 x)

/-- When both price-per-sqft fields are present, the Python key comparison
never raises and agrees with the lexicographic order on the pure keys. -/
theorem pyLtKey_ok {x y : PropertyData} (hx : x.price_per_sqft.isSome = true)
    (hy : y.price_per_sqft.isSome = true) :
    pyLtKey (sortKey x) (sortKey y) = .ok (decide (lexLt (key2 x) (key2 y))) := by
  obtain ⟨a, ha⟩ := Option.isSome_iff_exists.mp hx
  obtain ⟨b, hb⟩ := Option.isSome_iff_exists.mp hy
  simp only [pyLtKey, sortKey, key2, ha, hb, Option.getD_some]
  split_ifs with he
  · congr 1
    rw [decide_eq_decide]
    unfold lexLt
    constructor
    · intro h
      exact Or.inr ⟨he, h⟩
    · rintro (h | ⟨-, h⟩)
      · exact absurd h (by rw [he]; exact lt_irrefl _)
      · exact h
  · congr 1
    rw [decide_eq_decide]
    unfold lexLt
    constructor
    · intro h
      exact Or.inl h
    · rintro (h | ⟨hee, -⟩)
      · exact h
      · exact absurd hee he

/-- The monadic insertion of rank_by_semantic_relevance agrees with ordered
insertion for the descending ranking relation when every key is comparable. -/
theorem insertDesc_ok {x : PropertyData} {l : List PropertyData}
    (hx : x.price_per_sqft.isSome = true)
    (hl : ∀ p ∈ l, p.price_per_sqft.isSome = true) :
    insertDesc x l = .ok (List.orderedInsert rankRel x l) := by
  induction l with
  | nil => rfl
  | cons y ys ih =>
    have hy : y.price_per_sqft.isSome = true := hl y (List.mem_cons_self y ys)
    have hys : ∀ p ∈ ys, p.price_per_sqft.isSome = true :=
      fun p hp => hl p (List.mem_cons_of_mem y hp)
    rw [insertDesc, pyLtKey_ok hx hy]
    by_cases hlt : lexLt (key2 x) (key2 y)
    · rw [decide_eq_true hlt]
      show (do
        let rest ← insertDesc x ys
        pure (y :: rest) : Except Unit (List PropertyData)) = _
      rw [ih hys, List.orderedInsert,
        if_neg (fun hr => ((rankRel_iff x y).mp hr) hlt)]
      rfl
    · rw [decide_eq_false hlt]
      show (.ok (x :: y :: ys) : Except Unit (List PropertyData)) = _
      rw [List.orderedInsert, if_pos ((rankRel_iff x y).mpr hlt)]

/-- rank_by_semantic_relevance succeeds on comparable inputs and computes the
stable descending insertion sort. -/
theorem rank_ok (l : List PropertyData)
    (hl : ∀ p ∈ l, p.price_per_sqft.isSome = true) :
    rank_by_semantic_relevance l = .ok (List.insertionSort rankRel l) := by
  induction l with
  | nil => rfl
  | cons x xs ih =>
    have hx : x.price_per_sqft.isSome = true := hl x (List.mem_cons_self x xs)
    have hxs : ∀ p ∈ xs, p.price_per_sqft.isSome = true :=
      fun p hp => hl p (List.mem_cons_of_mem x hp)
    rw [rank_by_semantic_relevance, ih hxs]
    show insertDesc x (List.insertionSort rankRel xs) = _
    rw [insertDesc_ok hx
      (fun p hp => hxs p ((List.mem_insertionSort rankRel).mp hp))]
    rfl

/-- Ordered insertion of an element with the given key puts it in front of
the equal-keyed elements already present. -/
theorem filter_orderedInsert_eq {x : PropertyData} {k : Rat × Rat}
    (hk : key2 x = k) :
    ∀ l : List PropertyData,
      (List.orderedInsert rankRel x l).filter (fun p => decide (key2 p = k)) =
        x :: l.filter (fun p => decide (key2 p = k)) := by
  intro l
  induction l with
  | nil => simp [List.orderedInsert, hk]
  | cons y ys ih =>
    rw [List.orderedInsert]
    by_cases hr : rankRel x y
    · rw [if_pos hr]
      simp [List.filter_cons, hk]
    · rw [if_neg hr]
      have hy : ¬ (key2 y = k) := by
        intro hky
        apply hr
        show lexLe (key2 y) (key2 x)
        rw [hky, hk]
        exact Or.inr ⟨rfl, le_rfl⟩
      simp [List.filter_cons, hy, ih]

/-- Ordered insertion of an element with a different key leaves the filtered
sublist unchanged. -/
theorem filter_orderedInsert_ne {x : PropertyData} {k : Rat × Rat}
    (hk : ¬ key2 x = k) :
    ∀ l : List PropertyData,
      (List.orderedInsert rankRel x l).filter (fun p => decide (key2 p = k)) =
        l.filter (fun p => decide (key2 p = k)) := by
  intro l
  induction l with
  | nil => simp [List.orderedInsert, hk]
  | cons y ys ih =>
    rw [List.orderedInsert]
    by_cases hr : rankRel x y
    · rw [if_pos hr]
      simp [List.filter_cons, hk]
    · rw [if_neg hr]
      simp [List.filter_cons, ih]

/-- Stability of the insertion sort: the sublist of a given key is exactly the
input's sublist of that key, in input order. -/
theorem filter_insertionSort (k : Rat × Rat) :
    ∀ l : List PropertyData,
      (List.insertionSort rankRel l).filter (fun p => decide (key2 p = k)) =
        l.filter (fun p => decide (key2 p = k)) := by
  intro l
  induction l with
  | nil => rfl
  | cons x xs ih =>
    show (List.orderedInsert rankRel x (List.insertionSort rankRel xs)).filter _ = _
    by_cases hx : key2 x = k
    · rw [filter_orderedInsert_eq hx, ih]
      simp [List.filter_cons, hx]
    · rw [filter_orderedInsert_ne hx, ih]
      simp [List.filter_cons, hx]

/-- C5: on inputs whose price-per-sqft keys are all present, the ranking step
succeeds and returns a permutation of its input that is sorted descending by
the key pair (semantic score, price-per-sqft) — ties on score broken by
higher price-per-sqft — and stable: the elements of any fixed key appear in
input order. -/
theorem rank_sorted_descending_stable (l : List PropertyData)
    (hl : ∀ p ∈ l, p.price_per_sqft.isSome = true) :
    ∃ l2, rank_by_semantic_relevance l = .ok l2 ∧
      l2.Perm l ∧ l2.Sorted rankRel ∧
      ∀ k : Rat × Rat,
        l2.filter (fun p => decide (key2 p = k)) =
          l.filter (fun p => decide (key2 p = k)) :=
  ⟨List.insertionSort rankRel l, rank_ok l hl, List.perm_insertionSort rankRel l,
   List.sorted_insertionSort rankRel l, fun k => filter_insertionSort k l⟩

/-- C5 witness: the spec's tie-breaking scenario, two listings both scoring
0.4 with price-per-sqft 900 and 1100. -/
theorem rank_sorted_descending_stable_witness :
    ∃ l2, rank_by_semantic_relevance [tie_900_listing, tie_1100_listing] = .ok l2 ∧
      l2.Perm [tie_900_listing, tie_1100_listing] ∧ l2.Sorted rankRel ∧
      ∀ k : Rat × Rat,
        l2.filter (fun p => decide (key2 p = k)) =
          [tie_900_listing, tie_1100_listing].filter (fun p => decide (key2 p = k)) :=
  rank_sorted_descending_stable [tie_900_listing, tie_1100_listing] (by decide)

end SemanticHouseSearch
